import Mathlib

/-!
Verification of the MF_IdealSim_3D potential-flow core.

The development shallowly embeds, over the real numbers:
  - the batch compiled evaluator updateVelocities (fluid_sim.go), per particle;
  - the scalar interpreted evaluator updateVelocitiesJS (Main.js), per
    particle, split into the target-velocity computation and the smoothing;
  - the pressure function calculatePressure (fluid_sim.go);
  - the per-tick particle integration and recycling of updateParticles
    (Main.js), with the call to Math.random modelled by explicit inputs and
    the try/catch around the compiled path modelled by an explicit flag.

Floating-point rounding is not modelled: arithmetic is exact real
arithmetic, and Math.sqrt, Math.pow, Math.atan2, Math.sin, Math.cos and
Math.PI are the corresponding exact real functions.
-/

namespace FluidSim

noncomputable section

/-- A 3D vector of reals, standing for one (x, y, z) triple of the flat
Float32 buffers of the program. -/
structure Vec3 where
  x : ℝ
  y : ℝ
  z : ℝ

/-- Two-argument arctangent, the semantics of Go math.Atan2 and JS
Math.atan2 on finite inputs: the argument of the complex number x + i y,
in the interval (-pi, pi]. -/
def atan2 (y x : ℝ) : ℝ := Complex.arg ⟨x, y⟩

/-- Go constant SPHERE (fluid_sim.go line 14). -/
def SPHERE : ℤ := 0

/-- Go constant CYLINDER (fluid_sim.go line 15). -/
def CYLINDER : ℤ := 1

/-- Go constant AIRFOIL (fluid_sim.go line 16). -/
def AIRFOIL : ℤ := 2

/-- Per-particle body of the batch compiled evaluator updateVelocities
(fluid_sim.go lines 50 to 121): the velocity written for one particle whose
position relative to the object is pos.  Translated branch by branch from
the Go source; the switch with no matching case leaves the free-stream
default in place. -/
def goParticleVelocity (pos : Vec3) (freeStreamVelocity fluidDensity : ℝ)
    (objectType : ℤ) (objectRadius : ℝ) : Vec3 :=
  let x := pos.x
  let y := pos.y
  let z := pos.z
  let r := Real.sqrt (x * x + y * y + z * z)
  if r > objectRadius then
    if objectType = SPHERE then
      let factor := objectRadius ^ 3 / r ^ 3
      ⟨freeStreamVelocity * (1 - factor * (3 * x * x / (2 * r * r) - 0.5)),
       freeStreamVelocity * (-factor * 3 * x * y / (2 * r * r)),
       freeStreamVelocity * (-factor * 3 * x * z / (2 * r * r))⟩
    else if objectType = CYLINDER then
      let rxy := Real.sqrt (x * x + y * y)
      if rxy > objectRadius then
        let factor := (objectRadius / rxy) ^ 2
        let vx := freeStreamVelocity * (1 - factor * (2 * x * x / (rxy * rxy) - 1))
        let vy := freeStreamVelocity * (-factor * 2 * x * y / (rxy * rxy))
        let pressure := fluidDensity *
          (0.5 * freeStreamVelocity * freeStreamVelocity - 0.5 * (vx * vx + vy * vy))
        ⟨vx, vy, 0 + z * pressure * 0.01⟩
      else
        ⟨0, 0, 0⟩
    else if objectType = AIRFOIL then
      let rxy := Real.sqrt (x * x + y * y)
      let angle := atan2 y x
      let circulation := freeStreamVelocity * 4 * Real.pi * objectRadius * Real.sin angle
      if rxy > objectRadius then
        let factor := (objectRadius / rxy) ^ 2
        let vx := freeStreamVelocity * (1 - factor * Real.cos (2 * angle))
        let vy := freeStreamVelocity * (-factor * Real.sin (2 * angle)) +
          circulation / (2 * Real.pi * rxy)
        ⟨vx, vy, 0.1 * z * (vx * vx + vy * vy) / (objectRadius * freeStreamVelocity)⟩
      else
        ⟨0, 0, 0⟩
    else
      ⟨freeStreamVelocity, 0, 0⟩
  else
    ⟨0, 0, 0⟩

/-- Per-particle target velocity of the scalar interpreted evaluator
updateVelocitiesJS (Main.js lines 1188 to 1277), before the smoothing step,
with the local constant radius = 1.0 of the source generalised to a
parameter (the source pins it; see jsTargetVelocity).  The switch on
simulationParams.objectType matches the string literals of the source, and
a string matching no case leaves the free-stream default in place. -/
def jsTargetVelocityR (pos : Vec3) (freeStreamVelocity fluidDensity : ℝ)
    (objectType : String) (radius : ℝ) : Vec3 :=
  let x := pos.x
  let y := pos.y
  let z := pos.z
  let r := Real.sqrt (x * x + y * y + z * z)
  if r > radius then
    if objectType = "sphere" then
      let factorSphere := radius ^ 3 / r ^ 3
      ⟨freeStreamVelocity * (1 - factorSphere * (3 * x * x / (2 * r * r) - 0.5)),
       freeStreamVelocity * (-factorSphere * 3 * x * y / (2 * r * r)),
       freeStreamVelocity * (-factorSphere * 3 * x * z / (2 * r * r))⟩
    else if objectType = "cylinder" then
      let rxyC := Real.sqrt (x * x + y * y)
      if rxyC > radius then
        let factorCyl := (radius / rxyC) ^ 2
        let vx := freeStreamVelocity * (1 - factorCyl * (2 * x * x / (rxyC * rxyC) - 1))
        let vy := freeStreamVelocity * (-factorCyl * 2 * x * y / (rxyC * rxyC))
        let pressure := fluidDensity *
          (0.5 * freeStreamVelocity * freeStreamVelocity - 0.5 * (vx * vx + vy * vy))
        ⟨vx, vy, 0 + z * pressure * 0.01⟩
      else
        ⟨0, 0, 0⟩
    else if objectType = "airfoil" then
      let rxyA := Real.sqrt (x * x + y * y)
      let angle := atan2 y x
      let circulation := freeStreamVelocity * 4 * Real.pi * radius * Real.sin angle
      if rxyA > radius then
        let factor := (radius / rxyA) ^ 2
        let vx := freeStreamVelocity * (1 - factor * Real.cos (2 * angle))
        let vy := freeStreamVelocity * (-factor * Real.sin (2 * angle)) +
          circulation / (2 * Real.pi * rxyA)
        ⟨vx, vy, 0.1 * z * (vx * vx + vy * vy) / (radius * freeStreamVelocity)⟩
      else
        ⟨0, 0, 0⟩
    else
      ⟨freeStreamVelocity, 0, 0⟩
  else
    ⟨0, 0, 0⟩

/-- The scalar evaluator target exactly as deployed: updateVelocitiesJS
fixes the object radius at 1.0 (Main.js line 1196). -/
def jsTargetVelocity (pos : Vec3) (freeStreamVelocity fluidDensity : ℝ)
    (objectType : String) : Vec3 :=
  jsTargetVelocityR pos freeStreamVelocity fluidDensity objectType 1.0

/-- Obstacle kind code passed by updateParticles to the compiled evaluator
(Main.js lines 1070 to 1071): sphere maps to 0, cylinder to 1, anything
else to 2. -/
def objectTypeCode (objectType : String) : ℤ :=
  if objectType = "sphere" then 0 else if objectType = "cylinder" then 1 else 2

/-- Per-particle body of calculatePressure (fluid_sim.go lines 144 to 156):
Bernoulli pressure of one velocity vector. -/
def calculatePressure (v : Vec3) (freeStreamVelocity fluidDensity : ℝ) : ℝ :=
  let pRef := 0.5 * fluidDensity * freeStreamVelocity * freeStreamVelocity
  pRef - 0.5 * fluidDensity * (v.x * v.x + v.y * v.y + v.z * v.z)

/-- The smoothing step of updateVelocitiesJS (Main.js lines 1272 to 1274):
the stored velocity is damped toward the target. -/
def smoothVelocity (v target : Vec3) : Vec3 :=
  ⟨v.x * 0.95 + target.x * 0.05,
   v.y * 0.95 + target.y * 0.05,
   v.z * 0.95 + target.z * 0.05⟩

/-- Guard of the compiled path in updateParticles (Main.js line 1060):
wasmLoaded, wasmModule truthy, and window.updateVelocities a function. -/
def wasmPathSelected (wasmLoaded wasmModuleOk hasUpdateFn : Bool) : Bool :=
  wasmLoaded && wasmModuleOk && hasUpdateFn

/-- Value of the wasmLoaded flag after one updateParticles tick, as a
function of its value before and of whether the compiled call threw: the
catch handler (Main.js lines 1081 to 1084) only logs and calls
updateVelocitiesJS, and no statement of updateParticles assigns
wasmLoaded, so the flag is unchanged either way. -/
def wasmLoadedAfterTick (wasmLoaded : Bool) (wasmThrows : Bool) : Bool :=
  wasmLoaded

/-- Velocity-update phase of one updateParticles tick for one particle
(Main.js lines 1060 to 1087).  The boolean wasmThrows abstracts whether
the invocation of the compiled evaluator raised: on the compiled path the
returned buffer is copied into the velocity with no smoothing; in the
catch handler and on the interpreted path, updateVelocitiesJS smooths the
old velocity toward its target.  The compiled evaluator is called with
radius 1.0 (Main.js line 1072). -/
def updateParticleVelocity (wasmLoaded wasmModuleOk hasUpdateFn wasmThrows : Bool)
    (vel pos : Vec3) (freeStreamVelocity fluidDensity : ℝ) (objectType : String) : Vec3 :=
  if wasmPathSelected wasmLoaded wasmModuleOk hasUpdateFn then
    if wasmThrows then
      smoothVelocity vel (jsTargetVelocity pos freeStreamVelocity fluidDensity objectType)
    else
      goParticleVelocity pos freeStreamVelocity fluidDensity (objectTypeCode objectType) 1.0
  else
    smoothVelocity vel (jsTargetVelocity pos freeStreamVelocity fluidDensity objectType)

/-- The bounding volume of updateParticles (Main.js lines 1049 to 1054):
entry plane, exit plane, width and height of the tunnel. -/
structure Tunnel where
  entryX : ℝ
  exitX : ℝ
  width : ℝ
  height : ℝ

/-- Time step of updateParticles (Main.js line 1057). -/
def dt : ℝ := 0.01

/-- Position integration of one particle (Main.js lines 1093 to 1095). -/
def integrateParticle (pos vel : Vec3) : Vec3 :=
  ⟨pos.x + vel.x * dt, pos.y + vel.y * dt, pos.z + vel.z * dt⟩

/-- Recycling branch of updateParticles (Main.js lines 1098 to 1117),
applied to the post-integration position.  The two calls to Math.random
are modelled by the explicit inputs rand1 and rand2.  Returns the new
(position, velocity) pair; a particle that did not exit is unchanged. -/
def recycleParticle (tunnel : Tunnel) (freeStreamVelocity : ℝ) (pos vel : Vec3)
    (rand1 rand2 : ℝ) : Vec3 × Vec3 :=
  if pos.x > tunnel.exitX ∨ |pos.y| > tunnel.width / 2 ∨ |pos.z| > tunnel.height / 2 then
    if |pos.y| > tunnel.width / 2 ∨ |pos.z| > tunnel.height / 2 then
      (⟨tunnel.entryX, (rand1 - 0.5) * tunnel.width * 0.8, (rand2 - 0.5) * tunnel.height * 0.8⟩,
       ⟨freeStreamVelocity, 0, 0⟩)
    else
      (⟨tunnel.entryX, pos.y, pos.z⟩, ⟨freeStreamVelocity, 0, 0⟩)
  else
    (pos, vel)

/-- Integration followed by recycling: the per-particle body of the
position-update loop of updateParticles (Main.js lines 1089 to 1118),
after the velocity-update phase has produced vel. -/
def updateParticleStep (tunnel : Tunnel) (freeStreamVelocity : ℝ) (pos vel : Vec3)
    (rand1 rand2 : ℝ) : Vec3 × Vec3 :=
  recycleParticle tunnel freeStreamVelocity (integrateParticle pos vel) vel rand1 rand2

/-- Magnitude of a velocity vector, used to state the pressure
monotonicity property of the spec. -/
def velocityMagnitude (v : Vec3) : ℝ :=
  Real.sqrt (v.x * v.x + v.y * v.y + v.z * v.z)

end

section Helpers

/-- Shared lemma: on the three obstacle kinds the per-particle compiled
evaluator and the per-particle scalar target agree exactly, for every
radius, via the kind encoding used by the caller. -/
lemma go_js_agree (pos : Vec3) (U rho radius : ℝ) (s : String)
    (hs : s = "sphere" ∨ s = "cylinder" ∨ s = "airfoil") :
    goParticleVelocity pos U rho (objectTypeCode s) radius =
      jsTargetVelocityR pos U rho s radius := by
  rcases hs with rfl | rfl | rfl <;> rfl

/-- Shared lemma: evaluation of the square root of a sum of squares at a
point where it is a perfect square. -/
lemma sqrt_sum_sq_eq (a b c r : ℝ) (hr : 0 ≤ r) (h : a * a + b * b + c * c = r ^ 2) :
    Real.sqrt (a * a + b * b + c * c) = r := by
  rw [h, Real.sqrt_sq hr]

/-- Shared lemma: a re-seeded lateral coordinate lies within 80 percent of
the half-extent when the random sample is in the unit interval. -/
lemma reseed_abs_le (rand w : ℝ) (h0 : 0 ≤ rand) (h1 : rand ≤ 1) (hw : 0 ≤ w) :
    |(rand - 0.5) * w * 0.8| ≤ 0.8 * (w / 2) := by
  rw [abs_mul, abs_mul, abs_of_nonneg hw]
  have h : |rand - 0.5| ≤ 0.5 := by
    rw [abs_le]
    constructor <;> linarith
  rw [show |(0.8:ℝ)| = 0.8 by norm_num]
  nlinarith

end Helpers

/-- Claim C1: for every input tuple (relative position, obstacle kind,
radius, free-stream speed, fluid density), for each of the three obstacle
kinds, the batch compiled evaluator and the per-particle target of the
scalar interpreted evaluator produce the same velocity vector.  Over the
exact real semantics the agreement is exact equality, which in particular
is within the 1e-5 relative tolerance of the spec, and it holds at every
position including those at kind-gate boundaries. -/
theorem claim_C1 (pos : Vec3) (U rho radius : ℝ) (s : String)
    (hs : s = "sphere" ∨ s = "cylinder" ∨ s = "airfoil") :
    goParticleVelocity pos U rho (objectTypeCode s) radius =
      jsTargetVelocityR pos U rho s radius :=
  go_js_agree pos U rho radius s hs

/-- Witness for claim C1 at the concrete input (2, 0, 0), sphere kind,
radius 1, U = 1, rho = 1. -/
theorem claim_C1_witness :
    goParticleVelocity ⟨2, 0, 0⟩ 1 1 (objectTypeCode "sphere") 1 =
      jsTargetVelocityR ⟨2, 0, 0⟩ 1 1 "sphere" 1 :=
  claim_C1 ⟨2, 0, 0⟩ 1 1 1 "sphere" (Or.inl rfl)

/-- Claim C2: for every obstacle kind and every relative position whose 3D
radial distance satisfies r less than or equal to radius, the evaluated
velocity is exactly (0, 0, 0), in the batch evaluator and in the scalar
evaluator. -/
theorem claim_C2 (pos : Vec3) (U rho radius : ℝ) (s : String)
    (hs : s = "sphere" ∨ s = "cylinder" ∨ s = "airfoil")
    (hr : Real.sqrt (pos.x * pos.x + pos.y * pos.y + pos.z * pos.z) ≤ radius) :
    goParticleVelocity pos U rho (objectTypeCode s) radius = ⟨0, 0, 0⟩ ∧
      jsTargetVelocityR pos U rho s radius = ⟨0, 0, 0⟩ := by
  constructor
  · simp only [goParticleVelocity, if_neg (not_lt.2 hr)]
  · simp only [jsTargetVelocityR, if_neg (not_lt.2 hr)]

/-- Witness for claim C2 at the obstacle center (0, 0, 0) with radius 1,
sphere kind. -/
theorem claim_C2_witness :
    goParticleVelocity ⟨0, 0, 0⟩ 1 1 (objectTypeCode "sphere") 1 = ⟨0, 0, 0⟩ ∧
      jsTargetVelocityR ⟨0, 0, 0⟩ 1 1 "sphere" 1 = ⟨0, 0, 0⟩ :=
  claim_C2 ⟨0, 0, 0⟩ 1 1 1 "sphere" (Or.inl rfl)
    (by
      rw [sqrt_sum_sq_eq 0 0 0 0 le_rfl (by norm_num)]
      norm_num)

/-- Claim C5: for the sphere obstacle with radius 1, free-stream speed 1
and density 1, at relative position (2, 0, 0) both evaluators return
exactly the velocity (0.875, 0, 0). -/
theorem claim_C5 :
    goParticleVelocity ⟨2, 0, 0⟩ 1 1 SPHERE 1 = ⟨0.875, 0, 0⟩ ∧
      jsTargetVelocity ⟨2, 0, 0⟩ 1 1 "sphere" = ⟨0.875, 0, 0⟩ := by
  have h : Real.sqrt ((2:ℝ) * 2 + 0 * 0 + 0 * 0) = 2 :=
    sqrt_sum_sq_eq 2 0 0 2 (by norm_num) (by norm_num)
  constructor
  · simp only [goParticleVelocity, h]
    norm_num
  · simp only [jsTargetVelocity, jsTargetVelocityR, h, String.reduceEq]
    norm_num

/-- Claim C6: for the cylinder obstacle with radius 1, free-stream speed 1
and density 1, at relative position (0, 2, 0) both evaluators return
exactly the velocity (1.25, 0, 0), and the Bernoulli pressure of that
velocity is exactly -0.28125, so the z contribution z times pressure times
0.01 vanishes at z = 0. -/
theorem claim_C6 :
    goParticleVelocity ⟨0, 2, 0⟩ 1 1 CYLINDER 1 = ⟨1.25, 0, 0⟩ ∧
      jsTargetVelocity ⟨0, 2, 0⟩ 1 1 "cylinder" = ⟨1.25, 0, 0⟩ ∧
      calculatePressure ⟨1.25, 0, 0⟩ 1 1 = -0.28125 := by
  have h : Real.sqrt ((0:ℝ) * 0 + 2 * 2 + 0 * 0) = 2 :=
    sqrt_sum_sq_eq 0 2 0 2 (by norm_num) (by norm_num)
  have h2 : Real.sqrt ((0:ℝ) * 0 + 2 * 2) = 2 := by
    rw [show ((0:ℝ) * 0 + 2 * 2) = 2 ^ 2 by norm_num, Real.sqrt_sq (by norm_num : (0:ℝ) ≤ 2)]
  refine ⟨?_, ?_, ?_⟩
  · simp only [goParticleVelocity, h, h2, CYLINDER, SPHERE]
    norm_num
  · simp only [jsTargetVelocity, jsTargetVelocityR, h, h2, String.reduceEq]
    norm_num
  · simp only [calculatePressure]
    norm_num

/-- Claim C7 counterexample: at fluid density 0 the pressure function is
not strictly decreasing in velocity magnitude; the pair v1 = (0, 0, 0),
v2 = (1, 0, 0) has strictly increasing magnitude but equal pressure. -/
theorem claim_C7_counterexample :
    velocityMagnitude ⟨0, 0, 0⟩ < velocityMagnitude ⟨1, 0, 0⟩ ∧
      ¬ calculatePressure ⟨0, 0, 0⟩ 1 0 > calculatePressure ⟨1, 0, 0⟩ 1 0 := by
  constructor
  · simp only [velocityMagnitude]
    rw [sqrt_sum_sq_eq 0 0 0 0 le_rfl (by norm_num),
      sqrt_sum_sq_eq 1 0 0 1 (by norm_num) (by norm_num)]
    norm_num
  · simp only [calculatePressure]
    norm_num

/-- Claim C7 as amended: for fixed positive fluid density and fixed
free-stream speed, calculatePressure is strictly decreasing in velocity
magnitude. -/
theorem claim_C7_amended (U rho : ℝ) (v1 v2 : Vec3) (hrho : 0 < rho)
    (h : velocityMagnitude v1 < velocityMagnitude v2) :
    calculatePressure v1 U rho > calculatePressure v2 U rho := by
  simp only [velocityMagnitude] at h
  have hlt : v1.x * v1.x + v1.y * v1.y + v1.z * v1.z <
      v2.x * v2.x + v2.y * v2.y + v2.z * v2.z := by
    by_contra hle
    push_neg at hle
    exact absurd (Real.sqrt_le_sqrt hle) (not_le.2 h)
  simp only [calculatePressure]
  nlinarith

/-- Witness for amended claim C7 with rho = 1, U = 1, v1 = (0, 0, 0),
v2 = (1, 0, 0). -/
theorem claim_C7_amended_witness :
    calculatePressure ⟨0, 0, 0⟩ 1 1 > calculatePressure ⟨1, 0, 0⟩ 1 1 :=
  claim_C7_amended 1 1 ⟨0, 0, 0⟩ ⟨1, 0, 0⟩ (by norm_num)
    (by
      simp only [velocityMagnitude]
      rw [sqrt_sum_sq_eq 0 0 0 0 le_rfl (by norm_num),
        sqrt_sum_sq_eq 1 0 0 1 (by norm_num) (by norm_num)]
      norm_num)

/-- Claim C3 counterexample: on a tick where the compiled path is selected
and does not throw, the velocity is overwritten with the target directly,
not smoothed; at old velocity (0, 0, 0), position (2, 0, 0), sphere,
U = 1, rho = 1, the tick stores (0.875, 0, 0) while the claimed smoothing
of the old velocity toward the target would store (0.04375, 0, 0). -/
theorem claim_C3_counterexample :
    updateParticleVelocity true true true false ⟨0, 0, 0⟩ ⟨2, 0, 0⟩ 1 1 "sphere" ≠
      smoothVelocity ⟨0, 0, 0⟩ (jsTargetVelocity ⟨2, 0, 0⟩ 1 1 "sphere") := by
  have h : Real.sqrt ((2:ℝ) * 2 + 0 * 0 + 0 * 0) = 2 :=
    sqrt_sum_sq_eq 2 0 0 2 (by norm_num) (by norm_num)
  have hgo : updateParticleVelocity true true true false ⟨0, 0, 0⟩ ⟨2, 0, 0⟩ 1 1 "sphere" =
      ⟨0.875, 0, 0⟩ := by
    simp only [updateParticleVelocity, wasmPathSelected, goParticleVelocity, objectTypeCode,
      SPHERE, CYLINDER, AIRFOIL, String.reduceEq, h]
    norm_num
  have hjs : jsTargetVelocity ⟨2, 0, 0⟩ 1 1 "sphere" = ⟨0.875, 0, 0⟩ := by
    simp only [jsTargetVelocity, jsTargetVelocityR, h, String.reduceEq]
    norm_num
  rw [hgo, hjs]
  simp only [smoothVelocity, ne_eq, Vec3.mk.injEq]
  norm_num

/-- Claim C3 as amended: on every advance tick, when the target velocity
is supplied by the scalar evaluator (compiled path not selected, or
selected but throwing), the particle velocity is updated by exponential
smoothing with weights 0.95 and 0.05 toward the target; when the compiled
path is selected and succeeds, the velocity is set to the (identical)
target directly, with no smoothing. -/
theorem claim_C3_amended (wl wm fn throws : Bool) (vel pos : Vec3) (U rho : ℝ)
    (s : String) (hs : s = "sphere" ∨ s = "cylinder" ∨ s = "airfoil") :
    updateParticleVelocity wl wm fn throws vel pos U rho s =
      if wasmPathSelected wl wm fn && !throws then jsTargetVelocity pos U rho s
      else smoothVelocity vel (jsTargetVelocity pos U rho s) := by
  have hagree := go_js_agree pos U rho 1.0 s hs
  simp only [updateParticleVelocity, jsTargetVelocity] at *
  cases hsel : wasmPathSelected wl wm fn <;> cases throws <;>
    simp [hsel, hagree]

/-- Witness for amended claim C3 on the compiled-success path at a
concrete input. -/
theorem claim_C3_amended_witness :
    updateParticleVelocity true true true false ⟨0, 0, 0⟩ ⟨2, 0, 0⟩ 1 1 "sphere" =
      if wasmPathSelected true true true && !false then jsTargetVelocity ⟨2, 0, 0⟩ 1 1 "sphere"
      else smoothVelocity ⟨0, 0, 0⟩ (jsTargetVelocity ⟨2, 0, 0⟩ 1 1 "sphere") :=
  claim_C3_amended true true true false ⟨0, 0, 0⟩ ⟨2, 0, 0⟩ 1 1 "sphere" (Or.inl rfl)

/-- Claim C9: when the compiled path is selected and its invocation throws
on a tick, that tick computes the velocity with the scalar evaluator
(smoothing included), the wasmLoaded flag is unchanged by the per-call
failure, the compiled path is therefore selected again on the next tick,
and a next tick that does not throw uses the compiled evaluator. -/
theorem claim_C9 (wl wm fn : Bool) (vel pos : Vec3) (U rho : ℝ) (s : String)
    (hsel : wasmPathSelected wl wm fn = true) :
    updateParticleVelocity wl wm fn true vel pos U rho s =
      smoothVelocity vel (jsTargetVelocity pos U rho s) ∧
    wasmLoadedAfterTick wl true = wl ∧
    wasmPathSelected (wasmLoadedAfterTick wl true) wm fn = true ∧
    updateParticleVelocity (wasmLoadedAfterTick wl true) wm fn false vel pos U rho s =
      goParticleVelocity pos U rho (objectTypeCode s) 1.0 := by
  refine ⟨?_, rfl, ?_, ?_⟩
  · simp only [updateParticleVelocity, hsel, if_pos, if_true]
  · exact hsel
  · simp [updateParticleVelocity, wasmLoadedAfterTick, hsel]

/-- Witness for claim C9 at concrete flags and input. -/
theorem claim_C9_witness :
    updateParticleVelocity true true true true ⟨0, 0, 0⟩ ⟨2, 0, 0⟩ 1 1 "sphere" =
      smoothVelocity ⟨0, 0, 0⟩ (jsTargetVelocity ⟨2, 0, 0⟩ 1 1 "sphere") ∧
    wasmLoadedAfterTick true true = true ∧
    wasmPathSelected (wasmLoadedAfterTick true true) true true = true ∧
    updateParticleVelocity (wasmLoadedAfterTick true true) true true false
        ⟨0, 0, 0⟩ ⟨2, 0, 0⟩ 1 1 "sphere" =
      goParticleVelocity ⟨2, 0, 0⟩ 1 1 (objectTypeCode "sphere") 1.0 :=
  claim_C9 true true true ⟨0, 0, 0⟩ ⟨2, 0, 0⟩ 1 1 "sphere" rfl

/-- Claim C4: a recycled particle has its x set exactly to entryX and its
velocity reset exactly to (U, 0, 0) with no smoothing; on a lateral exit
the y and z coordinates are re-seeded to the random point
((rand - 0.5) * width * 0.8, (rand - 0.5) * height * 0.8), which lies
within 80 percent of the bounding cross-section; on a purely axial exit
the existing y and z are kept unchanged. -/
theorem claim_C4 (tunnel : Tunnel) (U : ℝ) (pos vel : Vec3) (rand1 rand2 : ℝ)
    (hexit : pos.x > tunnel.exitX ∨ |pos.y| > tunnel.width / 2 ∨
      |pos.z| > tunnel.height / 2)
    (hr1 : 0 ≤ rand1) (hr1b : rand1 ≤ 1) (hr2 : 0 ≤ rand2) (hr2b : rand2 ≤ 1)
    (hw : 0 ≤ tunnel.width) (hh : 0 ≤ tunnel.height) :
    (recycleParticle tunnel U pos vel rand1 rand2).1.x = tunnel.entryX ∧
    (recycleParticle tunnel U pos vel rand1 rand2).2 = ⟨U, 0, 0⟩ ∧
    ((|pos.y| > tunnel.width / 2 ∨ |pos.z| > tunnel.height / 2) →
      (recycleParticle tunnel U pos vel rand1 rand2).1.y =
          (rand1 - 0.5) * tunnel.width * 0.8 ∧
        (recycleParticle tunnel U pos vel rand1 rand2).1.z =
          (rand2 - 0.5) * tunnel.height * 0.8 ∧
        |(recycleParticle tunnel U pos vel rand1 rand2).1.y| ≤ 0.8 * (tunnel.width / 2) ∧
        |(recycleParticle tunnel U pos vel rand1 rand2).1.z| ≤ 0.8 * (tunnel.height / 2)) ∧
    (¬(|pos.y| > tunnel.width / 2 ∨ |pos.z| > tunnel.height / 2) →
      (recycleParticle tunnel U pos vel rand1 rand2).1.y = pos.y ∧
        (recycleParticle tunnel U pos vel rand1 rand2).1.z = pos.z) := by
  have hb1 : |(rand1 - 0.5) * tunnel.width * 0.8| ≤ 0.8 * (tunnel.width / 2) :=
    reseed_abs_le rand1 tunnel.width hr1 hr1b hw
  have hb2 : |(rand2 - 0.5) * tunnel.height * 0.8| ≤ 0.8 * (tunnel.height / 2) :=
    reseed_abs_le rand2 tunnel.height hr2 hr2b hh
  by_cases hlat : |pos.y| > tunnel.width / 2 ∨ |pos.z| > tunnel.height / 2
  · refine ⟨?_, ?_, fun _ => ⟨?_, ?_, ?_, ?_⟩, fun h => absurd hlat h⟩ <;>
      simp only [recycleParticle, if_pos hexit, if_pos hlat]
    · exact hb1
    · exact hb2
  · refine ⟨?_, ?_, fun h => absurd h hlat, fun _ => ⟨?_, ?_⟩⟩ <;>
      simp only [recycleParticle, if_pos hexit, if_neg hlat]

/-- Witness for claim C4: axial exit at position (11, 0, 0) in the default
tunnel, with U = 1 and both random samples 0.25. -/
theorem claim_C4_witness :
    (recycleParticle ⟨-10, 10, 8, 8⟩ 1 ⟨11, 0, 0⟩ ⟨1, 0, 0⟩ 0.25 0.25).1.x = (-10 : ℝ) ∧
    (recycleParticle ⟨-10, 10, 8, 8⟩ 1 ⟨11, 0, 0⟩ ⟨1, 0, 0⟩ 0.25 0.25).2 = ⟨1, 0, 0⟩ ∧
    ((|(0:ℝ)| > (8:ℝ) / 2 ∨ |(0:ℝ)| > (8:ℝ) / 2) →
      (recycleParticle ⟨-10, 10, 8, 8⟩ 1 ⟨11, 0, 0⟩ ⟨1, 0, 0⟩ 0.25 0.25).1.y =
          (0.25 - 0.5) * 8 * 0.8 ∧
        (recycleParticle ⟨-10, 10, 8, 8⟩ 1 ⟨11, 0, 0⟩ ⟨1, 0, 0⟩ 0.25 0.25).1.z =
          (0.25 - 0.5) * 8 * 0.8 ∧
        |(recycleParticle ⟨-10, 10, 8, 8⟩ 1 ⟨11, 0, 0⟩ ⟨1, 0, 0⟩ 0.25 0.25).1.y| ≤
          0.8 * ((8:ℝ) / 2) ∧
        |(recycleParticle ⟨-10, 10, 8, 8⟩ 1 ⟨11, 0, 0⟩ ⟨1, 0, 0⟩ 0.25 0.25).1.z| ≤
          0.8 * ((8:ℝ) / 2)) ∧
    (¬(|(0:ℝ)| > (8:ℝ) / 2 ∨ |(0:ℝ)| > (8:ℝ) / 2) →
      (recycleParticle ⟨-10, 10, 8, 8⟩ 1 ⟨11, 0, 0⟩ ⟨1, 0, 0⟩ 0.25 0.25).1.y = 0 ∧
        (recycleParticle ⟨-10, 10, 8, 8⟩ 1 ⟨11, 0, 0⟩ ⟨1, 0, 0⟩ 0.25 0.25).1.z = 0) :=
  claim_C4 ⟨-10, 10, 8, 8⟩ 1 ⟨11, 0, 0⟩ ⟨1, 0, 0⟩ 0.25 0.25
    (Or.inl (by norm_num)) (by norm_num) (by norm_num) (by norm_num) (by norm_num)
    (by norm_num) (by norm_num)

/-- Claim C10: after one per-particle updateParticles step the position
satisfies x at most exitX, absolute y at most half the width and absolute
z at most half the height, any violation from the integration being
corrected by the recycle branch in the same tick; and there is no lower
bound on x, as shown by a particle that starts on the entry plane with a
negative velocity and ends the tick at x strictly below entryX without
being recycled. -/
theorem claim_C10 (tunnel : Tunnel) (U : ℝ) (pos vel : Vec3) (rand1 rand2 : ℝ)
    (hentry : tunnel.entryX ≤ tunnel.exitX) (hw : 0 ≤ tunnel.width)
    (hh : 0 ≤ tunnel.height)
    (hr1 : 0 ≤ rand1) (hr1b : rand1 ≤ 1) (hr2 : 0 ≤ rand2) (hr2b : rand2 ≤ 1) :
    ((updateParticleStep tunnel U pos vel rand1 rand2).1.x ≤ tunnel.exitX ∧
      |(updateParticleStep tunnel U pos vel rand1 rand2).1.y| ≤ tunnel.width / 2 ∧
      |(updateParticleStep tunnel U pos vel rand1 rand2).1.z| ≤ tunnel.height / 2) ∧
    ((updateParticleStep ⟨-10, 10, 8, 8⟩ U ⟨-10, 0, 0⟩ ⟨-100, 0, 0⟩ rand1 rand2).1.x <
      (⟨-10, 10, 8, 8⟩ : Tunnel).entryX) := by
  constructor
  · set p := integrateParticle pos vel with hp
    by_cases hexit : p.x > tunnel.exitX ∨ |p.y| > tunnel.width / 2 ∨
        |p.z| > tunnel.height / 2
    · by_cases hlat : |p.y| > tunnel.width / 2 ∨ |p.z| > tunnel.height / 2
      · refine ⟨?_, ?_, ?_⟩ <;>
          simp only [updateParticleStep, ← hp, recycleParticle, if_pos hexit, if_pos hlat]
        · exact hentry
        · exact le_trans (reseed_abs_le rand1 tunnel.width hr1 hr1b hw) (by linarith)
        · exact le_trans (reseed_abs_le rand2 tunnel.height hr2 hr2b hh) (by linarith)
      · push_neg at hlat
        refine ⟨?_, ?_, ?_⟩ <;>
          simp only [updateParticleStep, ← hp, recycleParticle, if_pos hexit, if_neg
            (show ¬(|p.y| > tunnel.width / 2 ∨ |p.z| > tunnel.height / 2) by
              push_neg
              exact hlat)]
        · exact hentry
        · exact hlat.1
        · exact hlat.2
    · have hkeep : updateParticleStep tunnel U pos vel rand1 rand2 = (p, vel) := by
        simp only [updateParticleStep, ← hp, recycleParticle, if_neg hexit]
      push_neg at hexit
      rw [hkeep]
      exact ⟨hexit.1, hexit.2.1, hexit.2.2⟩
  · have hint : integrateParticle ⟨-10, 0, 0⟩ ⟨-100, 0, 0⟩ = (⟨-11, 0, 0⟩ : Vec3) := by
      simp only [integrateParticle, dt, Vec3.mk.injEq]
      norm_num
    simp only [updateParticleStep, hint, recycleParticle]
    rw [if_neg (by norm_num)]
    norm_num

/-- Witness for claim C10 at the default tunnel with a stationary particle
at the origin and both random samples one half. -/
theorem claim_C10_witness :
    ((updateParticleStep ⟨-10, 10, 8, 8⟩ 1 ⟨0, 0, 0⟩ ⟨0, 0, 0⟩ 0.5 0.5).1.x ≤
        (⟨-10, 10, 8, 8⟩ : Tunnel).exitX ∧
      |(updateParticleStep ⟨-10, 10, 8, 8⟩ 1 ⟨0, 0, 0⟩ ⟨0, 0, 0⟩ 0.5 0.5).1.y| ≤
        (⟨-10, 10, 8, 8⟩ : Tunnel).width / 2 ∧
      |(updateParticleStep ⟨-10, 10, 8, 8⟩ 1 ⟨0, 0, 0⟩ ⟨0, 0, 0⟩ 0.5 0.5).1.z| ≤
        (⟨-10, 10, 8, 8⟩ : Tunnel).height / 2) ∧
    ((updateParticleStep ⟨-10, 10, 8, 8⟩ 1 ⟨-10, 0, 0⟩ ⟨-100, 0, 0⟩ 0.5 0.5).1.x <
      (⟨-10, 10, 8, 8⟩ : Tunnel).entryX) :=
  claim_C10 ⟨-10, 10, 8, 8⟩ 1 ⟨0, 0, 0⟩ ⟨0, 0, 0⟩ 0.5 0.5 (by norm_num) (by norm_num)
    (by norm_num) (by norm_num) (by norm_num) (by norm_num) (by norm_num)


section NeverFreeStream

/-- Shared lemma: sphere branch of the compiled evaluator outside the
object, written out. -/
lemma go_sphere_branch (x y z U rho radius : ℝ)
    (h : radius < Real.sqrt (x * x + y * y + z * z)) :
    goParticleVelocity ⟨x, y, z⟩ U rho SPHERE radius =
      ⟨U * (1 - radius ^ 3 / Real.sqrt (x * x + y * y + z * z) ^ 3 *
          (3 * x * x / (2 * Real.sqrt (x * x + y * y + z * z) *
            Real.sqrt (x * x + y * y + z * z)) - 0.5)),
       U * (-(radius ^ 3 / Real.sqrt (x * x + y * y + z * z) ^ 3) * 3 * x * y /
          (2 * Real.sqrt (x * x + y * y + z * z) * Real.sqrt (x * x + y * y + z * z))),
       U * (-(radius ^ 3 / Real.sqrt (x * x + y * y + z * z) ^ 3) * 3 * x * z /
          (2 * Real.sqrt (x * x + y * y + z * z) * Real.sqrt (x * x + y * y + z * z)))⟩ := by
  simp [goParticleVelocity, SPHERE, h]

lemma go_sphere_ne_freestream (x y z : ℝ) (U rho radius : ℝ) (hU : U ≠ 0)
    (hrad : 0 < radius)
    (hr : radius < Real.sqrt (x * x + y * y + z * z)) :
    goParticleVelocity ⟨x, y, z⟩ U rho SPHERE radius ≠ ⟨U, 0, 0⟩ := by
  have hrpos : 0 < Real.sqrt (x * x + y * y + z * z) := hrad.trans hr
  have hr2 : Real.sqrt (x * x + y * y + z * z) ^ 2 = x * x + y * y + z * z :=
    Real.sq_sqrt (by nlinarith [mul_self_nonneg x, mul_self_nonneg y, mul_self_nonneg z])
  intro hEq
  rw [go_sphere_branch x y z U rho radius hr, Vec3.mk.injEq] at hEq
  generalize hgen : Real.sqrt (x * x + y * y + z * z) = r at hEq hrpos hr2
  obtain ⟨h1, h2, h3⟩ := hEq
  -- derive the three algebraic facts
  have hrne : r ≠ 0 := ne_of_gt hrpos
  have hradne : radius ≠ 0 := ne_of_gt hrad
  have e1 : radius ^ 3 / r ^ 3 * (3 * x * x / (2 * r * r) - 0.5) = 0 := by
    have := mul_left_cancel₀ hU (h1.trans (mul_one U).symm)
    linarith
  have hfacpos : 0 < radius ^ 3 / r ^ 3 := by positivity
  have e1b : 3 * x * x / (2 * r * r) - 0.5 = 0 :=
    (mul_eq_zero.1 e1).resolve_left (ne_of_gt hfacpos)
  have hxx : 3 * (x * x) = r * r := by
    field_simp at e1b
    linarith
  have hxy : x * y = 0 := by
    field_simp [hU, hrne, hradne] at h2
    rcases mul_eq_zero.1 h2 with h | h
    · exact absurd h hU
    · have h' : (radius ^ 3 * 3) * (x * y) = 0 := by linear_combination h
      rcases mul_eq_zero.1 h' with h'' | h''
      · exact absurd h'' (by positivity)
      · exact h''
  have hxz : x * z = 0 := by
    field_simp [hU, hrne, hradne] at h3
    rcases mul_eq_zero.1 h3 with h | h
    · exact absurd h hU
    · have h' : (radius ^ 3 * 3) * (x * z) = 0 := by linear_combination h
      rcases mul_eq_zero.1 h' with h'' | h''
      · exact absurd h'' (by positivity)
      · exact h''
  -- contradiction
  have hrr : r * r = x * x + y * y + z * z := by nlinarith [hr2]
  have hx4 : (x * x) * (y * y + z * z) = 0 := by nlinarith [hxy, hxz]
  have hx0 : x * x = 0 := by nlinarith [hxx, hrr, hx4, mul_self_nonneg x]
  nlinarith [hxx, hrr, hx0, hrpos]

lemma go_cylinder_branch (x y z U rho radius : ℝ)
    (h : radius < Real.sqrt (x * x + y * y + z * z))
    (h2 : radius < Real.sqrt (x * x + y * y)) :
    goParticleVelocity ⟨x, y, z⟩ U rho CYLINDER radius =
      ⟨U * (1 - (radius / Real.sqrt (x * x + y * y)) ^ 2 *
          (2 * x * x / (Real.sqrt (x * x + y * y) * Real.sqrt (x * x + y * y)) - 1)),
       U * (-(radius / Real.sqrt (x * x + y * y)) ^ 2 * 2 * x * y /
          (Real.sqrt (x * x + y * y) * Real.sqrt (x * x + y * y))),
       0 + z * (rho * (0.5 * U * U - 0.5 *
          (U * (1 - (radius / Real.sqrt (x * x + y * y)) ^ 2 *
              (2 * x * x / (Real.sqrt (x * x + y * y) * Real.sqrt (x * x + y * y)) - 1)) *
            (U * (1 - (radius / Real.sqrt (x * x + y * y)) ^ 2 *
              (2 * x * x / (Real.sqrt (x * x + y * y) * Real.sqrt (x * x + y * y)) - 1))) +
           U * (-(radius / Real.sqrt (x * x + y * y)) ^ 2 * 2 * x * y /
              (Real.sqrt (x * x + y * y) * Real.sqrt (x * x + y * y))) *
            (U * (-(radius / Real.sqrt (x * x + y * y)) ^ 2 * 2 * x * y /
              (Real.sqrt (x * x + y * y) * Real.sqrt (x * x + y * y))))))) * 0.01⟩ := by
  simp [goParticleVelocity, CYLINDER, SPHERE, h, h2]

lemma go_cylinder_inner (x y z U rho radius : ℝ)
    (h : radius < Real.sqrt (x * x + y * y + z * z))
    (h2 : Real.sqrt (x * x + y * y) ≤ radius) :
    goParticleVelocity ⟨x, y, z⟩ U rho CYLINDER radius = ⟨0, 0, 0⟩ := by
  simp [goParticleVelocity, CYLINDER, SPHERE, h, not_lt.2 h2]

lemma go_cylinder_ne_freestream (x y z : ℝ) (U rho radius : ℝ) (hU : U ≠ 0)
    (hrad : 0 < radius)
    (hr : radius < Real.sqrt (x * x + y * y + z * z)) :
    goParticleVelocity ⟨x, y, z⟩ U rho CYLINDER radius ≠ ⟨U, 0, 0⟩ := by
  intro hEq
  by_cases hrxy : radius < Real.sqrt (x * x + y * y)
  · have hrxypos : 0 < Real.sqrt (x * x + y * y) := hrad.trans hrxy
    have hrxy2 : Real.sqrt (x * x + y * y) ^ 2 = x * x + y * y :=
      Real.sq_sqrt (by nlinarith [mul_self_nonneg x, mul_self_nonneg y])
    rw [go_cylinder_branch x y z U rho radius hr hrxy, Vec3.mk.injEq] at hEq
    generalize hgen : Real.sqrt (x * x + y * y) = n at hEq hrxypos hrxy2 hrxy
    obtain ⟨h1, h2, h3⟩ := hEq
    have hnne : n ≠ 0 := ne_of_gt hrxypos
    have hradne : radius ≠ 0 := ne_of_gt hrad
    have e1 : (radius / n) ^ 2 * (2 * x * x / (n * n) - 1) = 0 := by
      have := mul_left_cancel₀ hU (h1.trans (mul_one U).symm)
      linarith
    have hfacpos : 0 < (radius / n) ^ 2 := by positivity
    have e1b : 2 * x * x / (n * n) - 1 = 0 :=
      (mul_eq_zero.1 e1).resolve_left (ne_of_gt hfacpos)
    have hxx : 2 * (x * x) = n * n := by
      field_simp at e1b
      linarith
    have hxy : x * y = 0 := by
      field_simp [hU, hnne, hradne] at h2
      rcases mul_eq_zero.1 h2 with h | h
      · exact absurd h hU
      · have hq : (radius ^ 2 * 2) * (x * y) = 0 := by linear_combination h
        rcases mul_eq_zero.1 hq with hq2 | hq2
        · exact absurd hq2 (by positivity)
        · exact hq2
    have h4 : (x * x) * (y * y) = 0 := by linear_combination (x * y) * hxy
    have hyy : x * x = y * y := by nlinarith [hxx, hrxy2]
    have h5 : (x * x) ^ 2 = 0 := by linear_combination h4 + (x * x) * hyy
    have hx0 : x * x = 0 := by
      have := sq_eq_zero_iff.1 h5
      exact this
    nlinarith [hrxy2, hx0, hyy, hrxypos]
  · rw [go_cylinder_inner x y z U rho radius hr (not_lt.1 hrxy), Vec3.mk.injEq] at hEq
    exact hU hEq.1.symm

lemma go_airfoil_branch (x y z U rho radius : ℝ)
    (h : radius < Real.sqrt (x * x + y * y + z * z))
    (h2 : radius < Real.sqrt (x * x + y * y)) :
    goParticleVelocity ⟨x, y, z⟩ U rho AIRFOIL radius =
      ⟨U * (1 - (radius / Real.sqrt (x * x + y * y)) ^ 2 * Real.cos (2 * atan2 y x)),
       U * (-(radius / Real.sqrt (x * x + y * y)) ^ 2 * Real.sin (2 * atan2 y x)) +
         U * 4 * Real.pi * radius * Real.sin (atan2 y x) /
           (2 * Real.pi * Real.sqrt (x * x + y * y)),
       0.1 * z *
         (U * (1 - (radius / Real.sqrt (x * x + y * y)) ^ 2 * Real.cos (2 * atan2 y x)) *
           (U * (1 - (radius / Real.sqrt (x * x + y * y)) ^ 2 * Real.cos (2 * atan2 y x))) +
          (U * (-(radius / Real.sqrt (x * x + y * y)) ^ 2 * Real.sin (2 * atan2 y x)) +
            U * 4 * Real.pi * radius * Real.sin (atan2 y x) /
              (2 * Real.pi * Real.sqrt (x * x + y * y))) *
           (U * (-(radius / Real.sqrt (x * x + y * y)) ^ 2 * Real.sin (2 * atan2 y x)) +
            U * 4 * Real.pi * radius * Real.sin (atan2 y x) /
              (2 * Real.pi * Real.sqrt (x * x + y * y)))) /
         (radius * U)⟩ := by
  simp [goParticleVelocity, AIRFOIL, SPHERE, CYLINDER, h, h2]

lemma go_airfoil_inner (x y z U rho radius : ℝ)
    (h : radius < Real.sqrt (x * x + y * y + z * z))
    (h2 : Real.sqrt (x * x + y * y) ≤ radius) :
    goParticleVelocity ⟨x, y, z⟩ U rho AIRFOIL radius = ⟨0, 0, 0⟩ := by
  simp [goParticleVelocity, AIRFOIL, SPHERE, CYLINDER, h, not_lt.2 h2]

lemma go_airfoil_ne_freestream (x y z : ℝ) (U rho radius : ℝ) (hU : U ≠ 0)
    (hrad : 0 < radius)
    (hr : radius < Real.sqrt (x * x + y * y + z * z)) :
    goParticleVelocity ⟨x, y, z⟩ U rho AIRFOIL radius ≠ ⟨U, 0, 0⟩ := by
  intro hEq
  by_cases hrxy : radius < Real.sqrt (x * x + y * y)
  · have hrxypos : 0 < Real.sqrt (x * x + y * y) := hrad.trans hrxy
    have hrxy2 : Real.sqrt (x * x + y * y) ^ 2 = x * x + y * y :=
      Real.sq_sqrt (by nlinarith [mul_self_nonneg x, mul_self_nonneg y])
    have hxyne : (⟨x, y⟩ : ℂ) ≠ 0 := by
      intro h0
      rw [Complex.ext_iff] at h0
      obtain ⟨hx0, hy0⟩ := h0
      simp only [Complex.zero_re, Complex.zero_im] at hx0 hy0
      rw [hx0, hy0] at hrxypos
      simp [Real.sqrt_zero] at hrxypos
    have habs : Complex.abs ⟨x, y⟩ = Real.sqrt (x * x + y * y) := by
      rw [Complex.abs_apply, Complex.normSq_mk]
    have hcos : Real.cos (atan2 y x) = x / Real.sqrt (x * x + y * y) := by
      rw [atan2, Complex.cos_arg hxyne]
      simp [habs]
    have hsin : Real.sin (atan2 y x) = y / Real.sqrt (x * x + y * y) := by
      rw [atan2, Complex.sin_arg]
      simp [habs]
    have hcos2 : Real.cos (2 * atan2 y x) =
        2 * (x / Real.sqrt (x * x + y * y)) ^ 2 - 1 := by
      rw [Real.cos_two_mul, hcos]
    have hsin2 : Real.sin (2 * atan2 y x) =
        2 * (y / Real.sqrt (x * x + y * y)) * (x / Real.sqrt (x * x + y * y)) := by
      rw [Real.sin_two_mul, hsin, hcos]
    rw [go_airfoil_branch x y z U rho radius hr hrxy, hcos2, hsin2, hsin,
      Vec3.mk.injEq] at hEq
    generalize hgen : Real.sqrt (x * x + y * y) = n at hEq hrxypos hrxy2 hrxy
    obtain ⟨h1, h2, h3⟩ := hEq
    have hnne : n ≠ 0 := ne_of_gt hrxypos
    have hradne : radius ≠ 0 := ne_of_gt hrad
    have e1 : (radius / n) ^ 2 * (2 * (x / n) ^ 2 - 1) = 0 := by
      have := mul_left_cancel₀ hU (h1.trans (mul_one U).symm)
      linarith
    have hfacpos : 0 < (radius / n) ^ 2 := by positivity
    have e1b : 2 * (x / n) ^ 2 - 1 = 0 :=
      (mul_eq_zero.1 e1).resolve_left (ne_of_gt hfacpos)
    have hxx : 2 * (x * x) = n * n := by
      field_simp at e1b
      linarith
    clear h3 hcos hsin hcos2 hsin2 habs
    have hfac : y * (n ^ 2 - radius * x) = 0 := by
      field_simp [hU, hnne, hradne, Real.pi_ne_zero] at h2
      have hbig : (4 * Real.pi * U * radius * n ^ 2) * (y * (n ^ 2 - radius * x)) = 0 := by
        linear_combination h2
      have hcoef : (4 * Real.pi * U * radius * n ^ 2) ≠ 0 := by
        have h4 : (4:ℝ) ≠ 0 := by norm_num
        exact mul_ne_zero (mul_ne_zero (mul_ne_zero (mul_ne_zero h4 Real.pi_ne_zero) hU)
          hradne) (pow_ne_zero 2 hnne)
      exact (mul_eq_zero.1 hbig).resolve_left hcoef
    rcases mul_eq_zero.1 hfac with hy0 | hq
    · nlinarith [hxx, hrxy2, hy0, mul_pos hrxypos hrxypos]
    · have hq2 : n ^ 2 = radius * x := by linarith
      have hx2 : x * (2 * x - radius) = 0 := by linear_combination hxx + hq2
      rcases mul_eq_zero.1 hx2 with hx0 | hx1
      · rw [hx0, mul_zero] at hq2
        have hpos : (0:ℝ) < n ^ 2 := by positivity
        linarith
      · have hxval : x = radius / 2 := by linarith
        rw [hxval] at hq2
        have hn2 : radius ^ 2 < n ^ 2 := by nlinarith [hrxy, hrad]
        nlinarith [hq2, hn2, mul_pos hrad hrad]
  · rw [go_airfoil_inner x y z U rho radius hr (not_lt.1 hrxy), Vec3.mk.injEq] at hEq
    exact hU hEq.1.symm


/-- Claim C8: for every obstacle kind, at every relative position whose 3D
radial distance exceeds radius times (1 + eps) with eps nonnegative, with
positive radius (radius zero is an unchecked precondition violation per
the spec) and nonzero free-stream speed, the evaluated velocity differs
from the free-stream vector (U, 0, 0); the set of outside points where
the perturbation vanishes identically is in fact empty, so the exception
clause of the claim is vacuous. -/
theorem claim_C8 (pos : Vec3) (U rho radius eps : ℝ) (t : ℤ)
    (ht : t = SPHERE ∨ t = CYLINDER ∨ t = AIRFOIL)
    (hrad : 0 < radius) (heps : 0 ≤ eps) (hU : U ≠ 0)
    (hr : radius * (1 + eps) <
      Real.sqrt (pos.x * pos.x + pos.y * pos.y + pos.z * pos.z)) :
    goParticleVelocity pos U rho t radius ≠ ⟨U, 0, 0⟩ := by
  obtain ⟨x, y, z⟩ := pos
  have hrx : radius < Real.sqrt (x * x + y * y + z * z) := by
    have hle : radius ≤ radius * (1 + eps) := by nlinarith
    exact lt_of_le_of_lt hle hr
  rcases ht with rfl | rfl | rfl
  · exact go_sphere_ne_freestream x y z U rho radius hU hrad hrx
  · exact go_cylinder_ne_freestream x y z U rho radius hU hrad hrx
  · exact go_airfoil_ne_freestream x y z U rho radius hU hrad hrx

/-- Witness for claim C8 at position (2, 0, 0), sphere kind, radius 1,
eps 0, U = 1, rho = 1. -/
theorem claim_C8_witness :
    goParticleVelocity ⟨2, 0, 0⟩ 1 1 SPHERE 1 ≠ ⟨1, 0, 0⟩ :=
  claim_C8 ⟨2, 0, 0⟩ 1 1 1 0 SPHERE (Or.inl rfl) (by norm_num) le_rfl (by norm_num)
    (by
      show (1:ℝ) * (1 + 0) < Real.sqrt (2 * 2 + 0 * 0 + 0 * 0)
      rw [sqrt_sum_sq_eq 2 0 0 2 (by norm_num) (by norm_num)]
      norm_num)

end NeverFreeStream

end FluidSim
